import Mathlib

/-!
Verification of the zero-copy IPC-to-FFI bridge (`src/ffi/mmap.rs`).

The Rust module builds a tree of C-ABI `ArrowArray` handles pointing directly
into a shared byte buffer, driven by two queues (field nodes and buffer
descriptors) consumed in pre-order over the schema.

Shallow embedding conventions:
* Rust's `&mut VecDeque` queues and the count of live heap allocations made by
  `create_array` are explicit state (`St`); every fallible function lives in
  the monad `M α = St → Except Failure α × St`.  Mutations persist across
  errors, exactly as `&mut` state does when a Rust function returns `Err` —
  and, for allocations, when the stack unwinds without any `Drop` running.
* A Rust `panic!` (out-of-bounds slice indexing, `Option::unwrap` on `None`,
  `todo!()`) is the distinguished outcome `Failure.panic`, kept apart from the
  `Error` values the module returns (`Failure.err _`).
* Machine integers: wire values (`i64`) are `Int`; `usize` quantities are
  `Nat`.  `try_into::<usize>()` fails exactly on negative wire values.
* Byte buffers carry no content — none of the verified properties inspects
  bytes — only an extent (`len`) and a base address (`base`), the latter so
  that `bytemuck`'s pointer-alignment check is representable.
-/

namespace ArrowMmap

/-- Error kinds returned by the module.  The Rust code uses
`OutOfSpecKind::{ExpectedBuffer, NegativeFooterLength}` and
`Error::OutOfSpec(..)` with fixed message strings; the spec names the string
variants `OutOfBounds` ("buffer out of bounds"), `Misaligned` ("buffer not
aligned for mmap"), `TooSmall` ("buffer's length is too small in mmap") and
`MissingDictionary` ("Missing dictionary").  `expectedNode` is modelled from
the spec: the spec (§7) names an `ExpectedNode` kind for node-queue
exhaustion; `OutOfSpecKind` is defined in `io::ipc::read`, outside the
provided sources.  `oosOther` stands for the remaining `OutOfSpec` errors
raised by helpers of other modules (e.g. `try_get_child` on a mismatched
type), unreachable from the dispatch paths modelled here. -/
inductive BuildError where
  | expectedBuffer
  | expectedNode
  | negativeFooterLength
  | outOfBounds
  | misaligned
  | tooSmall
  | missingDictionary
  | oosOther
deriving DecidableEq

/-- Outcome of a fallible Rust computation: a returned `Error` or a panic. -/
inductive Failure where
  | err (e : BuildError)
  | panic
deriving DecidableEq

/-- Whether a failure is a returned `Error` value (as opposed to a panic). -/
def Failure.isReturnedError : Failure → Bool
  | .err _ => true
  | .panic => false

/-- The owned byte region (`Arc<T>` with `T: AsRef<[u8]>`): an extent and the
address at which it is mapped (needed for the alignment check). -/
structure SourceBytes where
  base : Nat
  len : Nat
deriving DecidableEq

/-- A borrowed sub-slice of the source bytes: start address and byte length. -/
structure ByteSlice where
  addr : Nat
  len : Nat
deriving DecidableEq

/-- Rust `data.get(a..b)`: `Some` slice iff `a <= b && b <= data.len()`. -/
def SourceBytes.getRange (d : SourceBytes) (a b : Nat) : Option ByteSlice :=
  if a ≤ b ∧ b ≤ d.len then some ⟨d.base + a, b - a⟩ else none

/-- A field node of the IPC footer: `(length, null_count)`, signed on the wire. -/
structure Node where
  length : Int
  null_count : Int
deriving DecidableEq

/-- A buffer descriptor of the IPC footer: `(offset, length)`, signed on the wire. -/
structure IpcBuffer where
  offset : Int
  length : Int
deriving DecidableEq

/-- The mutable state threaded through construction: the two queues
(`field_nodes`, `buffers`, drained from the front) and the number of live heap
allocations made by `create_array` / `export_array_to_c` (each `Box` not yet
reclaimed by the release callback). -/
structure St where
  nodes : List Node
  buffers : List IpcBuffer
  alloc : Nat
deriving DecidableEq

/-- The effect monad: state passing plus `Result`/panic short-circuiting.
State mutations persist when an error or panic propagates, as Rust `&mut`
arguments do. -/
def M (α : Type) : Type := St → Except Failure α × St

def M.pure {α : Type} (a : α) : M α := fun s => (.ok a, s)

def M.bind {α β : Type} (x : M α) (f : α → M β) : M β := fun s =>
  match x s with
  | (.ok a, s2) => f a s2
  | (.error e, s2) => (.error e, s2)

instance : Monad M where
  pure := M.pure
  bind := M.bind

/-- Short-circuit with a returned error or a panic. -/
def M.fail {α : Type} (e : Failure) : M α := fun s => (.error e, s)

def M.getSt : M St := fun s => (.ok s, s)

def M.setSt (s2 : St) : M Unit := fun _ => (.ok (), s2)

def M.modifySt (f : St → St) : M Unit := fun s => (.ok (), f s)

/-- The primitive (`NativeType`) element types dispatched by
`with_match_primitive_type!`; also instantiates `get_buffer::<T>` for binary
offsets (`i32`/`i64`), raw bytes (`u8`) and dictionary keys. -/
inductive PrimitiveType where
  | int8
  | int16
  | int32
  | int64
  | int128
  | int256
  | uint8
  | uint16
  | uint32
  | uint64
  | float16
  | float32
  | float64
  | daysMs
  | monthDayNano
deriving DecidableEq

/-- `std::mem::size_of::<T>()` for each native type (`days_ms` is `(i32,i32)`,
`months_days_ns` is `(i32,i32,i64)`, `i256` is 32 bytes). -/
def PrimitiveType.byteWidth : PrimitiveType → Nat
  | .int8 | .uint8 => 1
  | .int16 | .uint16 | .float16 => 2
  | .int32 | .uint32 | .float32 => 4
  | .int64 | .uint64 | .float64 | .daysMs => 8
  | .int128 | .monthDayNano => 16
  | .int256 => 32

/-- `std::mem::align_of::<T>()` for each native type. -/
def PrimitiveType.alignOf : PrimitiveType → Nat
  | .int8 | .uint8 => 1
  | .int16 | .uint16 | .float16 => 2
  | .int32 | .uint32 | .float32 | .daysMs => 4
  | .int64 | .uint64 | .float64 | .monthDayNano => 8
  | .int128 | .int256 => 16

/-- The integer key types dispatched by `match_integer_type!` for dictionaries. -/
inductive IntegerType where
  | i8
  | i16
  | i32
  | i64
  | u8
  | u16
  | u32
  | u64
deriving DecidableEq

/-- The native type underlying a dictionary key type. -/
def IntegerType.toPrimitive : IntegerType → PrimitiveType
  | .i8 => .int8
  | .i16 => .int16
  | .i32 => .int32
  | .i64 => .int64
  | .u8 => .uint8
  | .u16 => .uint16
  | .u32 => .uint32
  | .u64 => .uint64

mutual
/-- The logical data-type tree, restricted to the structure `get_array`
consumes: constructor tags in bijection with `to_physical_type()` results,
plus the child types needed for recursion (`ListArray::try_get_child`,
`FixedSizeListArray::try_child_and_size`, `StructArray::try_get_fields`
extract exactly these from the corresponding `DataType` variants; only the
child's `data_type()` is consumed, so field names/sizes are omitted).
`union` and `map` are the physical types with no mapped builder (the
`_ => todo!()` arm); their payloads are irrelevant to dispatch and omitted. -/
inductive DataType where
  | null
  | boolean
  | primitive (p : PrimitiveType)
  | utf8
  | binary
  | largeUtf8
  | largeBinary
  | fixedSizeBinary
  | list (child : DataType)
  | largeList (child : DataType)
  | fixedSizeList (child : DataType)
  | struct (children : DataTypeList)
  | dictionary (key : IntegerType) (value : DataType)
  | union
  | map
/-- The list of a struct's child types (a mutual inductive so the pre-order
walk is structurally recursive). -/
inductive DataTypeList where
  | nil
  | cons (head : DataType) (tail : DataTypeList)
end

/-- Physical-layout family of a data type (`PhysicalType`). -/
inductive PhysicalType where
  | null
  | boolean
  | primitive (p : PrimitiveType)
  | utf8
  | binary
  | largeUtf8
  | largeBinary
  | fixedSizeBinary
  | list
  | largeList
  | fixedSizeList
  | struct
  | dictionary (key : IntegerType)
  | union
  | map
deriving DecidableEq

/-- `DataType::to_physical_type`. -/
def DataType.to_physical_type : DataType → PhysicalType
  | .null => .null
  | .boolean => .boolean
  | .primitive p => .primitive p
  | .utf8 => .utf8
  | .binary => .binary
  | .largeUtf8 => .largeUtf8
  | .largeBinary => .largeBinary
  | .fixedSizeBinary => .fixedSizeBinary
  | .list _ => .list
  | .largeList _ => .largeList
  | .fixedSizeList _ => .fixedSizeList
  | .struct _ => .struct
  | .dictionary k _ => .dictionary k
  | .union => .union
  | .map => .map

/-- Number of child types a struct declares. -/
def DataTypeList.length : DataTypeList → Nat
  | .nil => 0
  | .cons _ tl => tl.length + 1

/-- Per-node IPC metadata: nested child fields and the optional dictionary id. -/
inductive IpcField where
  | mk (fields : List IpcField) (dictionary_id : Option Int)

def IpcField.fields : IpcField → List IpcField
  | .mk fs _ => fs

def IpcField.dictionary_id : IpcField → Option Int
  | .mk _ d => d

/-- The externally supplied `Dictionaries` lookup, `dictionary_id` to a
materialized dictionary array.  Array values are opaque to this module (only
handed to `export_array_to_c`), so they are represented by tokens. -/
def Dictionaries : Type := Int → Option Nat

/-- The C-ABI `ArrowArray` struct as populated by `create_array`: `length`,
`null_count`, `offset` (always 0), the buffer-pointer array (`none` = null
pointer), the owned children, the optional owned dictionary handle.
`n_buffers`/`n_children` are stored as the lengths of those arrays (the source
sets them to exactly that).  `wrapped` marks a handle produced by
`export_array_to_c` re-wrapping a safe array (identified by its token);
`create_array` handles carry `none`. -/
inductive ArrowArray where
  | mk (length : Int) (null_count : Int) (offset : Int)
      (buffers : List (Option Nat)) (children : List ArrowArray)
      (dictionary : Option ArrowArray) (wrapped : Option Nat)

def ArrowArray.length : ArrowArray → Int
  | .mk l _ _ _ _ _ _ => l

def ArrowArray.null_count : ArrowArray → Int
  | .mk _ n _ _ _ _ _ => n

def ArrowArray.offset : ArrowArray → Int
  | .mk _ _ o _ _ _ _ => o

def ArrowArray.buffers : ArrowArray → List (Option Nat)
  | .mk _ _ _ b _ _ _ => b

def ArrowArray.children : ArrowArray → List ArrowArray
  | .mk _ _ _ _ c _ _ => c

def ArrowArray.dictionary : ArrowArray → Option ArrowArray
  | .mk _ _ _ _ _ d _ => d

def ArrowArray.wrapped : ArrowArray → Option Nat
  | .mk _ _ _ _ _ _ w => w

/-- `usize::try_from` on a signed 64-bit wire value, with failure mapped (as
at every call site in the module) to `NegativeFooterLength`. -/
def usizeOf (i : Int) : M Nat :=
  if 0 ≤ i then pure i.toNat else M.fail (.err .negativeFooterLength)

/-- `get_buffer_bounds`: pops one descriptor (`ExpectedBuffer` when the queue
is empty) and converts its offset and length to `usize`. -/
def get_buffer_bounds : M (Nat × Nat) := do
  let s ← M.getSt
  match s.buffers with
  | [] => M.fail (.err .expectedBuffer)
  | buffer :: rest => do
    M.setSt { s with buffers := rest }
    let offset ← usizeOf buffer.offset
    let length ← usizeOf buffer.length
    pure (offset, length)

/-- `get_buffer::<T>`: resolves one descriptor against the source bytes
(`OutOfBounds` past the extent), reinterprets the range as `&[T]` via
`bytemuck::try_cast_slice` (`Misaligned` when the start address is not a
multiple of `align_of::<T>` or the byte length not a multiple of
`size_of::<T>`), and requires at least `num_rows` elements (`TooSmall`).
Returns the byte slice. -/
def get_buffer (t : PrimitiveType) (data : SourceBytes) (block_offset : Nat)
    (num_rows : Nat) : M ByteSlice := do
  let (offset, length) ← get_buffer_bounds
  let values ← match data.getRange (block_offset + offset)
      (block_offset + offset + length) with
    | some v => pure v
    | none => M.fail (.err .outOfBounds)
  if values.addr % t.alignOf = 0 ∧ values.len % t.byteWidth = 0 then
    if values.len / t.byteWidth < num_rows then
      M.fail (.err .tooSmall)
    else
      pure values
  else
    M.fail (.err .misaligned)

/-- `get_validity`: always pops one descriptor; bounds-checks and returns the
slice only when `null_count > 0`, otherwise returns `none` unchecked. -/
def get_validity (data : SourceBytes) (block_offset : Nat)
    (null_count : Nat) : M (Option ByteSlice) := do
  let (offset, length) ← get_buffer_bounds
  if null_count > 0 then
    match data.getRange (block_offset + offset)
        (block_offset + offset + length) with
    | some v => pure (some v)
    | none => M.fail (.err .outOfBounds)
  else
    pure none

/-- `create_array`: assembles the ABI struct.  Heap allocations (counted in
`St.alloc`): the boxed `PrivateData` payload, one `Box::into_raw` per child
handle, and the boxed dictionary handle when present.  Per the release
protocol these are reclaimed only when the handle's `release` callback runs;
nothing in the construction paths below ever decrements the counter. -/
def create_array (num_rows : Nat) (null_count : Nat)
    (buffers : List (Option Nat)) (children : List ArrowArray)
    (dictionary : Option ArrowArray) : M ArrowArray := do
  M.modifySt fun s =>
    { s with alloc := s.alloc + 1 + children.length +
        (if dictionary.isSome then 1 else 0) }
  pure (.mk num_rows null_count 0 buffers children dictionary none)

/-- Modelled from the spec: `export_array_to_c` (defined in the surrounding
`ffi` module, outside the provided sources) re-wraps a materialized safe
array into a fresh FFI handle with its own private payload and release
callback ("re-wraps the looked-up array through the same FFI construction
path so it gets its own owning handle even though bytes are shared").  The
wrapped array is recorded by its token; its numeric fields are not modelled. -/
def export_array_to_c (array : Nat) : M ArrowArray := do
  M.modifySt fun s => { s with alloc := s.alloc + 1 }
  pure (.mk 0 0 0 [] [] none (some array))

/-- `mmap_null`: consumes no buffers, builds no children. -/
def mmap_null (node : Node) : M ArrowArray := do
  let num_rows ← usizeOf node.length
  let null_count ← usizeOf node.null_count
  create_array num_rows null_count [] [] none

/-- `mmap_boolean`: validity then the packed-bit values buffer.  The values
range is taken with `data_ref[a..b]` — a panicking index, not `get` — so an
out-of-range descriptor panics instead of returning an error. -/
def mmap_boolean (data : SourceBytes) (node : Node) (block_offset : Nat) :
    M ArrowArray := do
  let num_rows ← usizeOf node.length
  let null_count ← usizeOf node.null_count
  let validity := (← get_validity data block_offset null_count).map
    ByteSlice.addr
  let (offset, length) ← get_buffer_bounds
  let values ← match data.getRange (block_offset + offset)
      (block_offset + offset + length) with
    | some v => pure v.addr
    | none => M.fail .panic
  create_array num_rows null_count [validity, some values] [] none

/-- `mmap_primitive::<P>`: validity then a `P`-typed values buffer of at
least `num_rows` elements. -/
def mmap_primitive (p : PrimitiveType) (data : SourceBytes) (node : Node)
    (block_offset : Nat) : M ArrowArray := do
  let num_rows ← usizeOf node.length
  let null_count ← usizeOf node.null_count
  let validity := (← get_validity data block_offset null_count).map
    ByteSlice.addr
  let values := (← get_buffer p data block_offset num_rows).addr
  create_array num_rows null_count [validity, some values] [] none

/-- `mmap_binary::<O>` (`O` = `int32` for Binary/Utf8, `int64` for the Large
variants): validity, `num_rows + 1` `O`-typed offsets, raw `u8` values
(required element count 0). -/
def mmap_binary (o : PrimitiveType) (data : SourceBytes) (node : Node)
    (block_offset : Nat) : M ArrowArray := do
  let num_rows ← usizeOf node.length
  let null_count ← usizeOf node.null_count
  let validity := (← get_validity data block_offset null_count).map
    ByteSlice.addr
  let offsets := (← get_buffer o data block_offset (num_rows + 1)).addr
  let values := (← get_buffer .uint8 data block_offset 0).addr
  create_array num_rows null_count [validity, some offsets, some values] []
    none

/-- `mmap_fixed_size_binary`: validity then `u8` values with required element
count `num_rows + 1` (the loose check the spec flags as an open question). -/
def mmap_fixed_size_binary (data : SourceBytes) (node : Node)
    (block_offset : Nat) : M ArrowArray := do
  let num_rows ← usizeOf node.length
  let null_count ← usizeOf node.null_count
  let validity := (← get_validity data block_offset null_count).map
    ByteSlice.addr
  let values := (← get_buffer .uint8 data block_offset (num_rows + 1)).addr
  create_array num_rows null_count [validity, some values] [] none

/-- `mmap_list::<O>`: validity, `num_rows + 1` offsets, then one recursive
child.  The child data type (`ListArray::<O>::try_get_child(data_type)`,
infallible once the physical type matched `List`/`LargeList`) is extracted by
the dispatcher and the recursive `get_array` call is passed in as `get_child`
to tie the mutual recursion; `ipc_field.fields[0]` is a panicking index, so a
childless IPC field panics. -/
def mmap_list (o : PrimitiveType) (data : SourceBytes) (node : Node)
    (block_offset : Nat) (ipc_field : IpcField)
    (get_child : IpcField → M ArrowArray) : M ArrowArray := do
  let num_rows ← usizeOf node.length
  let null_count ← usizeOf node.null_count
  let validity := (← get_validity data block_offset null_count).map
    ByteSlice.addr
  let offsets := (← get_buffer o data block_offset (num_rows + 1)).addr
  let field0 ← match ipc_field.fields with
    | f :: _ => pure f
    | [] => M.fail .panic
  let values ← get_child field0
  create_array num_rows null_count [validity, some offsets] [values] none

/-- `mmap_fixed_size_list`: validity then one recursive child (child type
extracted by the dispatcher from `FixedSizeListArray::try_child_and_size`,
infallible at this call site); `ipc_field.fields[0]` panics when empty. -/
def mmap_fixed_size_list (data : SourceBytes) (node : Node)
    (block_offset : Nat) (ipc_field : IpcField)
    (get_child : IpcField → M ArrowArray) : M ArrowArray := do
  let num_rows ← usizeOf node.length
  let null_count ← usizeOf node.null_count
  let validity := (← get_validity data block_offset null_count).map
    ByteSlice.addr
  let field0 ← match ipc_field.fields with
    | f :: _ => pure f
    | [] => M.fail .panic
  let values ← get_child field0
  create_array num_rows null_count [validity] [values] none

/-- `mmap_struct`: validity, then the children of
`StructArray::try_get_fields(data_type)` (extracted by the dispatcher) zipped
with `ipc_field.fields` and collected left-to-right, stopping at the first
error; `get_children` is the dispatcher's recursive`get_arrays` loop over
that zip. -/
def mmap_struct (data : SourceBytes) (node : Node) (block_offset : Nat)
    (ipc_field : IpcField)
    (get_children : List IpcField → M (List ArrowArray)) : M ArrowArray := do
  let num_rows ← usizeOf node.length
  let null_count ← usizeOf node.null_count
  let validity := (← get_validity data block_offset null_count).map
    ByteSlice.addr
  let values ← get_children ipc_field.fields
  create_array num_rows null_count [validity] values none

/-- `mmap_dict::<K>`: resolves `ipc_field.dictionary_id.unwrap()` (panics on
`None`) against the lookup (`MissingDictionary` when absent), then validity
and a `K`-typed key buffer of at least `num_rows` elements; the looked-up
array is re-exported as the handle's owned dictionary. -/
def mmap_dict (k : IntegerType) (data : SourceBytes) (node : Node)
    (block_offset : Nat) (ipc_field : IpcField)
    (dictionaries : Dictionaries) : M ArrowArray := do
  let num_rows ← usizeOf node.length
  let null_count ← usizeOf node.null_count
  let dictId ← match ipc_field.dictionary_id with
    | some i => pure i
    | none => M.fail .panic
  let dictionary ← match dictionaries dictId with
    | some d => pure d
    | none => M.fail (.err .missingDictionary)
  let validity := (← get_validity data block_offset null_count).map
    ByteSlice.addr
  let values := (← get_buffer k.toPrimitive data block_offset num_rows).addr
  create_array num_rows null_count [validity, some values] []
    (some (← export_array_to_c dictionary))

mutual
/-- `get_array`, the dispatcher: pops one field node (the source raises
`OutOfSpecKind::ExpectedBuffer` here, not an `ExpectedNode` kind), then
dispatches on the physical type of `data_type`, arm-for-arm as the source's
match on `to_physical_type()` (see `DataType.to_physical_type`); the
`_ => todo!()` arm (union, map) panics. -/
def get_array (data : SourceBytes) (block_offset : Nat)
    (data_type : DataType) (ipc_field : IpcField)
    (dictionaries : Dictionaries) : M ArrowArray := do
  let s ← M.getSt
  match s.nodes with
  | [] => M.fail (.err .expectedBuffer)
  | node :: rest => do
    M.setSt { s with nodes := rest }
    match data_type with
    | .null => mmap_null node
    | .boolean => mmap_boolean data node block_offset
    | .primitive p => mmap_primitive p data node block_offset
    | .utf8 => mmap_binary .int32 data node block_offset
    | .binary => mmap_binary .int32 data node block_offset
    | .largeBinary => mmap_binary .int64 data node block_offset
    | .largeUtf8 => mmap_binary .int64 data node block_offset
    | .fixedSizeBinary => mmap_fixed_size_binary data node block_offset
    | .list child =>
      mmap_list .int32 data node block_offset ipc_field
        (fun f => get_array data block_offset child f dictionaries)
    | .largeList child =>
      mmap_list .int64 data node block_offset ipc_field
        (fun f => get_array data block_offset child f dictionaries)
    | .fixedSizeList child =>
      mmap_fixed_size_list data node block_offset ipc_field
        (fun f => get_array data block_offset child f dictionaries)
    | .struct children =>
      mmap_struct data node block_offset ipc_field
        (fun fs => get_arrays data block_offset children fs dictionaries)
    | .dictionary key _ =>
      mmap_dict key data node block_offset ipc_field dictionaries
    | .union => M.fail .panic
    | .map => M.fail .panic
termination_by structural data_type

/-- The loop `children.zip(ipc_field.fields).map(get_array).collect()` inside
`mmap_struct`: pairs schema children with IPC fields (truncating at the
shorter list, as `zip` does), building left-to-right and stopping at the
first error. -/
def get_arrays (data : SourceBytes) (block_offset : Nat)
    (children : DataTypeList) (fields : List IpcField)
    (dictionaries : Dictionaries) : M (List ArrowArray) :=
  match children, fields with
  | .cons c cs, f :: fs => do
    let a ← get_array data block_offset c f dictionaries
    let rest ← get_arrays data block_offset cs fs dictionaries
    pure (a :: rest)
  | _, _ => pure []
termination_by structural children
end

/-- The returned error (or panic) of a computation's outcome, `none` on success. -/
def errOf {α : Type} : Except Failure α × St → Option Failure
  | (.error e, _) => some e
  | (.ok _, _) => none

/-- Whether the outcome is a successfully built value. -/
def isOkB {α : Type} : Except Failure α × St → Bool
  | (.ok _, _) => true
  | (.error _, _) => false

/-- The number of children of a successfully built handle, `none` on failure. -/
def okChildren : Except Failure ArrowArray × St → Option Nat
  | (.ok a, _) => some a.children.length
  | (.error _, _) => none

/-! ## Unfolding lemmas for the resolver layer -/

theorem M.bind_apply {α β : Type} (x : M α) (f : α → M β) (s : St) :
    (x >>= f) s = match x s with
      | (.ok a, s2) => f a s2
      | (.error e, s2) => (.error e, s2) := rfl

theorem M.pure_apply {α : Type} (a : α) (s : St) :
    (Pure.pure (f := M) a) s = (.ok a, s) := rfl

theorem M.fail_apply {α : Type} (e : Failure) (s : St) :
    (M.fail (α := α) e) s = (.error e, s) := rfl

theorem M.getSt_apply (s : St) : M.getSt s = (.ok s, s) := rfl

theorem M.setSt_apply (s2 s : St) : M.setSt s2 s = (.ok (), s2) := rfl

theorem M.modifySt_apply (f : St → St) (s : St) :
    M.modifySt f s = (.ok (), f s) := rfl

/-- Closed form of `get_buffer_bounds` on a non-empty queue: the descriptor is
popped first, then its offset and length are converted (negative values give
`NegativeFooterLength`); the pop persists even when a conversion fails. -/
theorem get_buffer_bounds_cons (off len : Int) (ns : List Node)
    (rest : List IpcBuffer) (al : Nat) :
    get_buffer_bounds ⟨ns, ⟨off, len⟩ :: rest, al⟩ =
      if 0 ≤ off then
        if 0 ≤ len then (.ok (off.toNat, len.toNat), ⟨ns, rest, al⟩)
        else (.error (.err .negativeFooterLength), ⟨ns, rest, al⟩)
      else (.error (.err .negativeFooterLength), ⟨ns, rest, al⟩) := by
  simp only [get_buffer_bounds, usizeOf, M.bind_apply, M.getSt_apply,
    M.setSt_apply, M.pure_apply, M.fail_apply]
  split_ifs <;> rfl

/-- `get_buffer_bounds` on an empty queue: `ExpectedBuffer`, state unchanged. -/
theorem get_buffer_bounds_nil (ns : List Node) (al : Nat) :
    get_buffer_bounds ⟨ns, [], al⟩ =
      (.error (.err .expectedBuffer), ⟨ns, [], al⟩) := rfl

/-- `get_validity` with `null_count = 0` accepts any non-negative descriptor
without bounds-checking it, returning no bytes. -/
theorem get_validity_nc0 (d : SourceBytes) (bo : Nat) (off len : Int)
    (ns : List Node) (rest : List IpcBuffer) (al : Nat)
    (ho : 0 ≤ off) (hl : 0 ≤ len) :
    get_validity d bo 0 ⟨ns, ⟨off, len⟩ :: rest, al⟩ =
      (.ok none, ⟨ns, rest, al⟩) := by
  simp only [get_validity, M.bind_apply, get_buffer_bounds_cons, if_pos ho,
    if_pos hl]
  rfl

/-- `get_validity` with `null_count > 0` and an out-of-range descriptor fails
with `OutOfBounds`, the descriptor still popped. -/
theorem get_validity_pos_oob (d : SourceBytes) (bo nc : Nat) (off len : Int)
    (ns : List Node) (rest : List IpcBuffer) (al : Nat)
    (hnc : 0 < nc) (ho : 0 ≤ off) (hl : 0 ≤ len)
    (hrange : d.len < bo + off.toNat + len.toNat) :
    get_validity d bo nc ⟨ns, ⟨off, len⟩ :: rest, al⟩ =
      (.error (.err .outOfBounds), ⟨ns, rest, al⟩) := by
  have hno : ¬(bo + off.toNat ≤ bo + off.toNat + len.toNat ∧
      bo + off.toNat + len.toNat ≤ d.len) := by omega
  simp only [get_validity, M.bind_apply, get_buffer_bounds_cons, if_pos ho,
    if_pos hl, gt_iff_lt, if_pos hnc, SourceBytes.getRange, if_neg hno]
  rfl

/-- `get_validity` with `null_count > 0` and an in-range descriptor returns
the resolved slice. -/
theorem get_validity_pos_ok (d : SourceBytes) (bo nc : Nat) (off len : Int)
    (ns : List Node) (rest : List IpcBuffer) (al : Nat)
    (hnc : 0 < nc) (ho : 0 ≤ off) (hl : 0 ≤ len)
    (hrange : bo + off.toNat + len.toNat ≤ d.len) :
    get_validity d bo nc ⟨ns, ⟨off, len⟩ :: rest, al⟩ =
      (.ok (some ⟨d.base + (bo + off.toNat), len.toNat⟩), ⟨ns, rest, al⟩) := by
  have hyes : bo + off.toNat ≤ bo + off.toNat + len.toNat ∧
      bo + off.toNat + len.toNat ≤ d.len := by omega
  simp only [get_validity, M.bind_apply, get_buffer_bounds_cons, if_pos ho,
    if_pos hl, gt_iff_lt, if_pos hnc, SourceBytes.getRange, if_pos hyes,
    Nat.add_sub_cancel_left]
  rfl

/-- `get_buffer` with an out-of-range descriptor fails with `OutOfBounds`
before any reinterpretation, for every element type. -/
theorem get_buffer_oob (t : PrimitiveType) (d : SourceBytes) (bo nr : Nat)
    (off len : Int) (ns : List Node) (rest : List IpcBuffer) (al : Nat)
    (ho : 0 ≤ off) (hl : 0 ≤ len)
    (hrange : d.len < bo + off.toNat + len.toNat) :
    get_buffer t d bo nr ⟨ns, ⟨off, len⟩ :: rest, al⟩ =
      (.error (.err .outOfBounds), ⟨ns, rest, al⟩) := by
  have hno : ¬(bo + off.toNat ≤ bo + off.toNat + len.toNat ∧
      bo + off.toNat + len.toNat ≤ d.len) := by omega
  simp only [get_buffer, M.bind_apply, get_buffer_bounds_cons, if_pos ho,
    if_pos hl, SourceBytes.getRange, if_neg hno]
  rfl

/-- `get_buffer` with an in-range descriptor whose resolved slice fails
`bytemuck`'s cast check (start address not a multiple of the element
alignment, or byte length not a multiple of the element width) fails with
`Misaligned`. -/
theorem get_buffer_misaligned (t : PrimitiveType) (d : SourceBytes)
    (bo nr : Nat) (off len : Int) (ns : List Node) (rest : List IpcBuffer)
    (al : Nat) (ho : 0 ≤ off) (hl : 0 ≤ len)
    (hrange : bo + off.toNat + len.toNat ≤ d.len)
    (hmis : ¬((d.base + (bo + off.toNat)) % t.alignOf = 0 ∧
      len.toNat % t.byteWidth = 0)) :
    get_buffer t d bo nr ⟨ns, ⟨off, len⟩ :: rest, al⟩ =
      (.error (.err .misaligned), ⟨ns, rest, al⟩) := by
  have hyes : bo + off.toNat ≤ bo + off.toNat + len.toNat ∧
      bo + off.toNat + len.toNat ≤ d.len := by omega
  simp only [get_buffer, M.bind_apply, get_buffer_bounds_cons, if_pos ho,
    if_pos hl, SourceBytes.getRange, if_pos hyes, M.pure_apply,
    Nat.add_sub_cancel_left, if_neg hmis]
  rfl

/-- `get_buffer` with an in-range, castable descriptor fails with `TooSmall`
exactly when the element count is below `num_rows`, and otherwise returns the
resolved byte slice; either way exactly the one descriptor is consumed. -/
theorem get_buffer_cast_ok (t : PrimitiveType) (d : SourceBytes)
    (bo nr : Nat) (off len : Int) (ns : List Node) (rest : List IpcBuffer)
    (al : Nat) (ho : 0 ≤ off) (hl : 0 ≤ len)
    (hrange : bo + off.toNat + len.toNat ≤ d.len)
    (halign : (d.base + (bo + off.toNat)) % t.alignOf = 0)
    (hmult : len.toNat % t.byteWidth = 0) :
    get_buffer t d bo nr ⟨ns, ⟨off, len⟩ :: rest, al⟩ =
      if len.toNat / t.byteWidth < nr then
        (.error (.err .tooSmall), ⟨ns, rest, al⟩)
      else
        (.ok ⟨d.base + (bo + off.toNat), len.toNat⟩, ⟨ns, rest, al⟩) := by
  have hyes : bo + off.toNat ≤ bo + off.toNat + len.toNat ∧
      bo + off.toNat + len.toNat ≤ d.len := by omega
  simp only [get_buffer, M.bind_apply, get_buffer_bounds_cons, if_pos ho,
    if_pos hl, SourceBytes.getRange, if_pos hyes, M.pure_apply,
    Nat.add_sub_cancel_left, if_pos (And.intro halign hmult)]
  split <;> rfl

/-- `mmap_boolean` on a node with `null_count = 0` and an out-of-range values
descriptor: the panicking slice index `data_ref[..]` fires, so the build ends
in a panic rather than the `OutOfBounds` error, with both descriptors already
popped. -/
theorem mmap_boolean_values_oob_panics (d : SourceBytes) (bo : Nat)
    (n voff vlen off len : Int) (ns : List Node) (rest : List IpcBuffer)
    (al : Nat) (hn : 0 ≤ n) (hvo : 0 ≤ voff) (hvl : 0 ≤ vlen) (ho : 0 ≤ off)
    (hl : 0 ≤ len) (hrange : d.len < bo + off.toNat + len.toNat) :
    mmap_boolean d ⟨n, 0⟩ bo ⟨ns, ⟨voff, vlen⟩ :: ⟨off, len⟩ :: rest, al⟩ =
      (.error .panic, ⟨ns, rest, al⟩) := by
  have hno : ¬(bo + off.toNat ≤ bo + off.toNat + len.toNat ∧
      bo + off.toNat + len.toNat ≤ d.len) := by omega
  simp only [mmap_boolean, M.bind_apply, usizeOf, if_pos hn,
    if_pos (le_refl (0 : Int)), M.pure_apply, Int.toNat_zero,
    get_validity_nc0 d bo voff vlen ns (⟨off, len⟩ :: rest) al hvo hvl,
    Option.map_none', get_buffer_bounds_cons, if_pos ho, if_pos hl,
    SourceBytes.getRange, if_neg hno]
  rfl

/-! ## Claim theorems -/

/-- C9: validity resolution always pops exactly one buffer descriptor from
the queue, for every `null_count` (even when a later step fails, the final
state's queue is exactly the tail), and any returned value exposes bytes
exactly when `null_count > 0` (some slice for positive null count, `none` —
a null validity slot — for zero). -/
theorem validity_always_pops_and_gates (d : SourceBytes) (bo nc : Nat)
    (off len : Int) (ns : List Node) (rest : List IpcBuffer) (al : Nat) :
    (get_validity d bo nc ⟨ns, ⟨off, len⟩ :: rest, al⟩).2 = ⟨ns, rest, al⟩ ∧
    (∀ v, (get_validity d bo nc ⟨ns, ⟨off, len⟩ :: rest, al⟩).1 = .ok v →
      (v.isSome ↔ 0 < nc)) := by
  by_cases ho : 0 ≤ off
  · by_cases hl : 0 ≤ len
    · by_cases hnc : 0 < nc
      · by_cases hr : bo + off.toNat + len.toNat ≤ d.len
        · rw [get_validity_pos_ok d bo nc off len ns rest al hnc ho hl hr]
          refine ⟨rfl, fun v h => ?_⟩
          simp at h
          subst h
          simp [hnc]
        · rw [get_validity_pos_oob d bo nc off len ns rest al hnc ho hl
            (by omega)]
          refine ⟨rfl, fun v h => ?_⟩
          simp at h
      · have hz : nc = 0 := by omega
        subst hz
        rw [get_validity_nc0 d bo off len ns rest al ho hl]
        refine ⟨rfl, fun v h => ?_⟩
        simp at h
        subst h
        simp
    · constructor
      · simp [get_validity, M.bind_apply, get_buffer_bounds_cons, if_pos ho,
          if_neg hl, M.fail_apply]
      · intro v h
        simp [get_validity, M.bind_apply, get_buffer_bounds_cons, if_pos ho,
          if_neg hl, M.fail_apply] at h
  · constructor
    · simp [get_validity, M.bind_apply, get_buffer_bounds_cons, if_neg ho,
        M.fail_apply]
    · intro v h
      simp [get_validity, M.bind_apply, get_buffer_bounds_cons, if_neg ho,
        M.fail_apply] at h

/-- Witness for C9 at a concrete input: a positive null count returns the
resolved slice, and the descriptor is popped. -/
theorem validity_always_pops_and_gates_witness :
    (get_validity ⟨0, 8⟩ 0 1 ⟨[], [⟨0, 1⟩], 0⟩).2 = ⟨[], [], 0⟩ ∧
    ((some (⟨0, 1⟩ : ByteSlice)).isSome ↔ 0 < 1) :=
  ⟨(validity_always_pops_and_gates ⟨0, 8⟩ 0 1 0 1 [] [] 0).1,
   (validity_always_pops_and_gates ⟨0, 8⟩ 0 1 0 1 [] [] 0).2
     (some ⟨0, 1⟩) rfl⟩

set_option smartUnfolding false in
/-- C1 counterexample: a Boolean column over one source byte whose values
descriptor is `(offset 0, length 5)` — out of range — makes construction
panic (Rust slice-index panic), not return the `OutOfBounds` error the claim
requires for every physical type and buffer slot. -/
theorem boolean_values_oob_not_outOfBounds_cex :
    errOf (get_array ⟨0, 1⟩ 0 .boolean (.mk [] none) (fun _ => none)
      ⟨[⟨1, 0⟩], [⟨0, 0⟩, ⟨0, 5⟩], 0⟩) = some .panic ∧
    some Failure.panic ≠ some (Failure.err .outOfBounds) := by
  exact ⟨by decide, by decide⟩

/-- C1 (amended): an out-of-range descriptor fails the build with
`OutOfBounds` for every slot that is bounds-checked — every `get_buffer` slot
(all element types: primitive values, binary/list offsets, raw bytes,
dictionary keys) and the validity slot when `null_count > 0` — and no later
step runs (the error state is exactly the popped queue).  The two exceptions:
a validity descriptor with `null_count = 0` is skipped without any bounds
check (returning a null slot), and the Boolean values buffer panics on an
out-of-range descriptor instead of returning the error. -/
theorem oob_descriptor_fails_outOfBounds :
    (∀ (t : PrimitiveType) (d : SourceBytes) (bo nr : Nat) (off len : Int)
      (ns : List Node) (rest : List IpcBuffer) (al : Nat), 0 ≤ off →
      0 ≤ len → d.len < bo + off.toNat + len.toNat →
      get_buffer t d bo nr ⟨ns, ⟨off, len⟩ :: rest, al⟩ =
        (.error (.err .outOfBounds), ⟨ns, rest, al⟩)) ∧
    (∀ (d : SourceBytes) (bo nc : Nat) (off len : Int) (ns : List Node)
      (rest : List IpcBuffer) (al : Nat), 0 < nc → 0 ≤ off → 0 ≤ len →
      d.len < bo + off.toNat + len.toNat →
      get_validity d bo nc ⟨ns, ⟨off, len⟩ :: rest, al⟩ =
        (.error (.err .outOfBounds), ⟨ns, rest, al⟩)) ∧
    (∀ (d : SourceBytes) (bo : Nat) (off len : Int) (ns : List Node)
      (rest : List IpcBuffer) (al : Nat), 0 ≤ off → 0 ≤ len →
      get_validity d bo 0 ⟨ns, ⟨off, len⟩ :: rest, al⟩ =
        (.ok none, ⟨ns, rest, al⟩)) ∧
    (∀ (d : SourceBytes) (bo : Nat) (n voff vlen off len : Int)
      (ns : List Node) (rest : List IpcBuffer) (al : Nat), 0 ≤ n →
      0 ≤ voff → 0 ≤ vlen → 0 ≤ off → 0 ≤ len →
      d.len < bo + off.toNat + len.toNat →
      mmap_boolean d ⟨n, 0⟩ bo ⟨ns, ⟨voff, vlen⟩ :: ⟨off, len⟩ :: rest, al⟩ =
        (.error .panic, ⟨ns, rest, al⟩)) :=
  ⟨fun t d bo nr off len ns rest al ho hl hr =>
      get_buffer_oob t d bo nr off len ns rest al ho hl hr,
   fun d bo nc off len ns rest al hnc ho hl hr =>
      get_validity_pos_oob d bo nc off len ns rest al hnc ho hl hr,
   fun d bo off len ns rest al ho hl =>
      get_validity_nc0 d bo off len ns rest al ho hl,
   fun d bo n voff vlen off len ns rest al hn hvo hvl ho hl hr =>
      mmap_boolean_values_oob_panics d bo n voff vlen off len ns rest al hn
        hvo hvl ho hl hr⟩

/-- Witness for C1 (amended) at concrete inputs: an 8-byte source with a
12-byte descriptor fails `OutOfBounds` for `i32` values and for a checked
validity slot; a zero null count skips the check; the Boolean values slot
panics on a 1-byte source with a 5-byte descriptor. -/
theorem oob_descriptor_fails_outOfBounds_witness :
    get_buffer .int32 ⟨0, 8⟩ 0 0 ⟨[], [⟨0, 12⟩], 0⟩ =
      (.error (.err .outOfBounds), ⟨[], [], 0⟩) ∧
    get_validity ⟨0, 8⟩ 0 1 ⟨[], [⟨0, 12⟩], 0⟩ =
      (.error (.err .outOfBounds), ⟨[], [], 0⟩) ∧
    get_validity ⟨0, 8⟩ 0 0 ⟨[], [⟨0, 12⟩], 0⟩ = (.ok none, ⟨[], [], 0⟩) ∧
    mmap_boolean ⟨0, 1⟩ ⟨1, 0⟩ 0 ⟨[], [⟨0, 0⟩, ⟨0, 5⟩], 0⟩ =
      (.error .panic, ⟨[], [], 0⟩) :=
  ⟨oob_descriptor_fails_outOfBounds.1 .int32 ⟨0, 8⟩ 0 0 0 12 [] [] 0
      (by decide) (by decide) (by decide),
   oob_descriptor_fails_outOfBounds.2.1 ⟨0, 8⟩ 0 1 0 12 [] [] 0 (by decide)
      (by decide) (by decide) (by decide),
   oob_descriptor_fails_outOfBounds.2.2.1 ⟨0, 8⟩ 0 0 12 [] [] 0 (by decide)
      (by decide),
   oob_descriptor_fails_outOfBounds.2.2.2 ⟨0, 1⟩ 0 1 0 0 0 5 [] [] 0
      (by decide) (by decide) (by decide) (by decide) (by decide)
      (by decide)⟩

set_option smartUnfolding false in
/-- C3 counterexample: dispatching with an empty field-node queue fails with
the `ExpectedBuffer` kind — the same kind as buffer-queue exhaustion — not
the distinct `ExpectedNode` kind the claim requires. -/
theorem empty_node_queue_error_kind_cex :
    errOf (get_array ⟨0, 1⟩ 0 .null (.mk [] none) (fun _ => none)
      ⟨[], [], 0⟩) = some (.err .expectedBuffer) ∧
    BuildError.expectedBuffer ≠ BuildError.expectedNode :=
  ⟨by decide, by decide⟩

/-- C3 (amended): for every data type, IPC field, dictionary lookup, buffer
queue and source, dispatching with an empty field-node queue fails with the
`ExpectedBuffer` error kind (the source reuses
`OutOfSpecKind::ExpectedBuffer` for the node pop rather than an
`ExpectedNode` kind), leaving the state untouched. -/
theorem empty_node_queue_fails_expectedBuffer (d : SourceBytes) (bo : Nat)
    (dt : DataType) (f : IpcField) (dicts : Dictionaries)
    (bufs : List IpcBuffer) (al : Nat) :
    get_array d bo dt f dicts ⟨[], bufs, al⟩ =
      (.error (.err .expectedBuffer), ⟨[], bufs, al⟩) := by
  rw [get_array.eq_def]
  rfl

set_option smartUnfolding false in
/-- C6 counterexample: dispatching a Union column (an unmapped physical
type) hits `todo!()` — a panic, not a returned `UnsupportedType` error
kind. -/
theorem unsupported_type_panics_cex :
    errOf (get_array ⟨0, 4⟩ 0 .union (.mk [] none) (fun _ => none)
      ⟨[⟨1, 0⟩], [], 0⟩) = some .panic ∧
    (errOf (get_array ⟨0, 4⟩ 0 .union (.mk [] none) (fun _ => none)
      ⟨[⟨1, 0⟩], [], 0⟩)).map Failure.isReturnedError = some false :=
  ⟨by decide, by decide⟩

/-- C6 (amended): a data type whose physical type has no mapped builder
(union, map — the `_ => todo!()` arm) makes dispatch fail unconditionally on
every input that still has a field node, never silently defaulting to some
builder — but the failure is the `todo!()` panic, not a returned
`UnsupportedType` error kind. -/
theorem unmapped_physical_type_panics (dt : DataType)
    (h : dt.to_physical_type = .union ∨ dt.to_physical_type = .map)
    (d : SourceBytes) (bo : Nat) (f : IpcField) (dicts : Dictionaries)
    (n : Node) (ns : List Node) (bufs : List IpcBuffer) (al : Nat) :
    get_array d bo dt f dicts ⟨n :: ns, bufs, al⟩ =
      (.error .panic, ⟨ns, bufs, al⟩) := by
  cases dt <;> simp [DataType.to_physical_type] at h <;>
    rw [get_array.eq_def] <;> rfl

/-- Witness for C6 (amended) at a concrete input: a Union column with one
node queued panics, consuming the node. -/
theorem unmapped_physical_type_panics_witness :
    get_array ⟨0, 4⟩ 0 .union (.mk [] none) (fun _ => none)
      ⟨[⟨1, 0⟩], [], 0⟩ = (.error .panic, ⟨[], [], 0⟩) :=
  unmapped_physical_type_panics .union (Or.inl rfl) ⟨0, 4⟩ 0 (.mk [] none)
    (fun _ => none) ⟨1, 0⟩ [] [] 0

/-- C10: `mmap_dict` unconditionally unwraps the IPC field's optional
`dictionary_id`: for every dictionary key type, node with non-negative
length and null count, block offset, dictionaries lookup and state, a `None`
dictionary id makes construction panic (`Option::unwrap`) instead of
returning an error, before any descriptor of the node is consumed — the
state comes back untouched. -/
theorem dict_none_id_panics_before_consumption (k : IntegerType)
    (d : SourceBytes) (n ncnt : Int) (bo : Nat) (fs : List IpcField)
    (dicts : Dictionaries) (s : St) (hn : 0 ≤ n) (hc : 0 ≤ ncnt) :
    mmap_dict k d ⟨n, ncnt⟩ bo (.mk fs none) dicts s =
      (.error .panic, s) := by
  simp only [mmap_dict, M.bind_apply, usizeOf, if_pos hn, if_pos hc,
    M.pure_apply, IpcField.dictionary_id]
  rfl

/-- Witness for C10 at a concrete input: a dictionary column with no
dictionary id panics with the descriptor queue intact. -/
theorem dict_none_id_panics_before_consumption_witness :
    mmap_dict .i32 ⟨0, 4⟩ ⟨1, 0⟩ 0 (.mk [] none) (fun _ => none)
      ⟨[], [⟨0, 0⟩, ⟨0, 4⟩], 0⟩ =
      (.error .panic, ⟨[], [⟨0, 0⟩, ⟨0, 4⟩], 0⟩) :=
  dict_none_id_panics_before_consumption .i32 ⟨0, 4⟩ 1 0 0 [] (fun _ => none)
    ⟨[], [⟨0, 0⟩, ⟨0, 4⟩], 0⟩ (by decide) (by decide)

/-- `mmap_primitive` success shape on a node with `null_count = 0`: both the
validity and values descriptors are consumed, the values buffer only needs at
least `num_rows` elements, the validity slot is a null pointer, and exactly
the private payload allocation is made. -/
theorem mmap_primitive_success_shape (p : PrimitiveType) (d : SourceBytes)
    (n voff vlen off len : Int) (bo : Nat) (ns : List Node)
    (rest : List IpcBuffer) (al : Nat) (hn : 0 ≤ n) (hvo : 0 ≤ voff)
    (hvl : 0 ≤ vlen) (ho : 0 ≤ off) (hl : 0 ≤ len)
    (hrange : bo + off.toNat + len.toNat ≤ d.len)
    (halign : (d.base + (bo + off.toNat)) % p.alignOf = 0)
    (hmult : len.toNat % p.byteWidth = 0)
    (hcount : n.toNat ≤ len.toNat / p.byteWidth) :
    mmap_primitive p d ⟨n, 0⟩ bo
        ⟨ns, ⟨voff, vlen⟩ :: ⟨off, len⟩ :: rest, al⟩ =
      (.ok (.mk n.toNat 0 0 [none, some (d.base + (bo + off.toNat))] []
        none none), ⟨ns, rest, al + 1⟩) := by
  simp only [mmap_primitive, M.bind_apply, usizeOf, if_pos hn,
    if_pos (le_refl (0 : Int)), M.pure_apply, Int.toNat_zero,
    get_validity_nc0 d bo voff vlen ns (⟨off, len⟩ :: rest) al hvo hvl,
    Option.map_none',
    get_buffer_cast_ok p d bo n.toNat off len ns rest al ho hl hrange halign
      hmult,
    if_neg (not_lt.mpr hcount), create_array, M.modifySt_apply]
  rfl

/-- `mmap_primitive` on a node with `null_count = 0` and a values descriptor
that fails the cast check: `Misaligned` before anything is exposed. -/
theorem mmap_primitive_misaligned (p : PrimitiveType) (d : SourceBytes)
    (n voff vlen off len : Int) (bo : Nat) (ns : List Node)
    (rest : List IpcBuffer) (al : Nat) (hn : 0 ≤ n) (hvo : 0 ≤ voff)
    (hvl : 0 ≤ vlen) (ho : 0 ≤ off) (hl : 0 ≤ len)
    (hrange : bo + off.toNat + len.toNat ≤ d.len)
    (hmis : ¬((d.base + (bo + off.toNat)) % p.alignOf = 0 ∧
      len.toNat % p.byteWidth = 0)) :
    mmap_primitive p d ⟨n, 0⟩ bo
        ⟨ns, ⟨voff, vlen⟩ :: ⟨off, len⟩ :: rest, al⟩ =
      (.error (.err .misaligned), ⟨ns, rest, al⟩) := by
  simp only [mmap_primitive, M.bind_apply, usizeOf, if_pos hn,
    if_pos (le_refl (0 : Int)), M.pure_apply, Int.toNat_zero,
    get_validity_nc0 d bo voff vlen ns (⟨off, len⟩ :: rest) al hvo hvl,
    Option.map_none',
    get_buffer_misaligned p d bo n.toNat off len ns rest al ho hl hrange
      hmis]

set_option smartUnfolding false in
/-- C4 counterexample: a 2-row Int32 column whose values buffer holds 3
typed elements (12 bytes) builds successfully, so the builder does not
enforce the claimed `len == rows` shape — more elements than rows are
accepted. -/
theorem primitive_oversized_values_accepted_cex :
    isOkB (mmap_primitive .int32 ⟨0, 12⟩ ⟨2, 0⟩ 0
      ⟨[], [⟨0, 0⟩, ⟨0, 12⟩], 0⟩) = true ∧
    ¬(12 / PrimitiveType.byteWidth .int32 = 2) :=
  ⟨by decide, by decide⟩

/-- C4 (amended): the Primitive builder consumes exactly a validity
descriptor and a values descriptor, and enforces only a lower bound on the
typed element count: on an in-range, castable values buffer, `TooSmall`
occurs exactly when the element count is less than the row count, and any
count at least the row count (including strictly more) builds successfully,
consuming exactly the two descriptors. -/
theorem primitive_values_lower_bound_only :
    (∀ (t : PrimitiveType) (d : SourceBytes) (bo nr : Nat) (off len : Int)
      (ns : List Node) (rest : List IpcBuffer) (al : Nat), 0 ≤ off →
      0 ≤ len → bo + off.toNat + len.toNat ≤ d.len →
      (d.base + (bo + off.toNat)) % t.alignOf = 0 →
      len.toNat % t.byteWidth = 0 →
      ((get_buffer t d bo nr ⟨ns, ⟨off, len⟩ :: rest, al⟩).1 =
        .error (.err .tooSmall) ↔ len.toNat / t.byteWidth < nr)) ∧
    (∀ (p : PrimitiveType) (d : SourceBytes) (n voff vlen off len : Int)
      (bo : Nat) (ns : List Node) (rest : List IpcBuffer) (al : Nat),
      0 ≤ n → 0 ≤ voff → 0 ≤ vlen → 0 ≤ off → 0 ≤ len →
      bo + off.toNat + len.toNat ≤ d.len →
      (d.base + (bo + off.toNat)) % p.alignOf = 0 →
      len.toNat % p.byteWidth = 0 → n.toNat ≤ len.toNat / p.byteWidth →
      mmap_primitive p d ⟨n, 0⟩ bo
          ⟨ns, ⟨voff, vlen⟩ :: ⟨off, len⟩ :: rest, al⟩ =
        (.ok (.mk n.toNat 0 0 [none, some (d.base + (bo + off.toNat))] []
          none none), ⟨ns, rest, al + 1⟩)) := by
  constructor
  · intro t d bo nr off len ns rest al ho hl hr ha hm
    rw [get_buffer_cast_ok t d bo nr off len ns rest al ho hl hr ha hm]
    split_ifs with hlt <;> simp [hlt]
  · intro p d n voff vlen off len bo ns rest al hn hvo hvl ho hl hr ha hm hc
    exact mmap_primitive_success_shape p d n voff vlen off len bo ns rest al
      hn hvo hvl ho hl hr ha hm hc

/-- Witness for C4 (amended) at concrete inputs: an 8-byte `i32` buffer
(2 elements) is `TooSmall` for 3 rows, and a 12-byte `i32` buffer
(3 elements) builds a 2-row column. -/
theorem primitive_values_lower_bound_only_witness :
    ((get_buffer .int32 ⟨0, 8⟩ 0 3 ⟨[], [⟨0, 8⟩], 0⟩).1 =
      .error (.err .tooSmall) ↔ (8 : Nat) / PrimitiveType.byteWidth .int32 < 3) ∧
    mmap_primitive .int32 ⟨0, 12⟩ ⟨2, 0⟩ 0 ⟨[], [⟨0, 0⟩, ⟨0, 12⟩], 0⟩ =
      (.ok (.mk 2 0 0 [none, some 0] [] none none), ⟨[], [], 1⟩) :=
  ⟨by
    have h := primitive_values_lower_bound_only.1 .int32 ⟨0, 8⟩ 0 3 0 8 [] []
      0 (by decide) (by decide) (by decide) (by decide) (by decide)
    simpa using h,
   by
    have h := primitive_values_lower_bound_only.2 .int32 ⟨0, 12⟩ 2 0 0 0 12 0
      [] [] 0 (by decide) (by decide) (by decide) (by decide) (by decide)
      (by decide) (by decide) (by decide) (by decide)
    simpa using h⟩

/-- C8: a typed value buffer (primitive values, binary/list offsets,
dictionary keys — every `get_buffer` instantiation) whose in-range byte
slice cannot be reinterpreted as the target element type — length not a
whole multiple of the element width, or start address not suitably aligned —
fails with `Misaligned` before any reinterpretation; the Primitive builder
surfaces exactly that error. -/
theorem misaligned_typed_buffer_fails :
    (∀ (t : PrimitiveType) (d : SourceBytes) (bo nr : Nat) (off len : Int)
      (ns : List Node) (rest : List IpcBuffer) (al : Nat), 0 ≤ off →
      0 ≤ len → bo + off.toNat + len.toNat ≤ d.len →
      ¬((d.base + (bo + off.toNat)) % t.alignOf = 0 ∧
        len.toNat % t.byteWidth = 0) →
      get_buffer t d bo nr ⟨ns, ⟨off, len⟩ :: rest, al⟩ =
        (.error (.err .misaligned), ⟨ns, rest, al⟩)) ∧
    (∀ (p : PrimitiveType) (d : SourceBytes) (n voff vlen off len : Int)
      (bo : Nat) (ns : List Node) (rest : List IpcBuffer) (al : Nat),
      0 ≤ n → 0 ≤ voff → 0 ≤ vlen → 0 ≤ off → 0 ≤ len →
      bo + off.toNat + len.toNat ≤ d.len →
      ¬((d.base + (bo + off.toNat)) % p.alignOf = 0 ∧
        len.toNat % p.byteWidth = 0) →
      mmap_primitive p d ⟨n, 0⟩ bo
          ⟨ns, ⟨voff, vlen⟩ :: ⟨off, len⟩ :: rest, al⟩ =
        (.error (.err .misaligned), ⟨ns, rest, al⟩)) :=
  ⟨fun t d bo nr off len ns rest al ho hl hr hmis =>
    get_buffer_misaligned t d bo nr off len ns rest al ho hl hr hmis,
   fun p d n voff vlen off len bo ns rest al hn hvo hvl ho hl hr hmis =>
    mmap_primitive_misaligned p d n voff vlen off len bo ns rest al hn hvo
      hvl ho hl hr hmis⟩

/-- Witness for C8 at concrete inputs: a 6-byte range is not a whole number
of `i32` elements; a range starting at address 1 is not `i32`-aligned; and
the Primitive builder fails the same way. -/
theorem misaligned_typed_buffer_fails_witness :
    get_buffer .int32 ⟨0, 8⟩ 0 0 ⟨[], [⟨0, 6⟩], 0⟩ =
      (.error (.err .misaligned), ⟨[], [], 0⟩) ∧
    get_buffer .int32 ⟨1, 8⟩ 0 0 ⟨[], [⟨0, 4⟩], 0⟩ =
      (.error (.err .misaligned), ⟨[], [], 0⟩) ∧
    mmap_primitive .int32 ⟨0, 8⟩ ⟨1, 0⟩ 0 ⟨[], [⟨0, 0⟩, ⟨0, 6⟩], 0⟩ =
      (.error (.err .misaligned), ⟨[], [], 0⟩) :=
  ⟨misaligned_typed_buffer_fails.1 .int32 ⟨0, 8⟩ 0 0 0 6 [] [] 0 (by decide)
      (by decide) (by decide) (by decide),
   misaligned_typed_buffer_fails.1 .int32 ⟨1, 8⟩ 0 0 0 4 [] [] 0 (by decide)
      (by decide) (by decide) (by decide),
   misaligned_typed_buffer_fails.2 .int32 ⟨0, 8⟩ 1 0 0 0 6 0 [] [] 0
      (by decide) (by decide) (by decide) (by decide) (by decide)
      (by decide) (by decide)⟩

/-- C7: dictionary resolution.  When the declared `dictionary_id` is absent
from the supplied lookup, construction fails with `MissingDictionary` and no
handle is exposed (the state is returned untouched — the lookup precedes any
descriptor consumption).  When it is present, the successful build consumes
validity and key descriptors and carries, as its owned dictionary slot, a
fresh handle re-wrapping exactly the looked-up array (`export_array_to_c`),
with its own payload allocation on top of the parent handle's. -/
theorem dictionary_lookup_resolution :
    (∀ (k : IntegerType) (d : SourceBytes) (n ncnt : Int) (bo : Nat)
      (fs : List IpcField) (id : Int) (dicts : Dictionaries) (s : St),
      0 ≤ n → 0 ≤ ncnt → dicts id = none →
      mmap_dict k d ⟨n, ncnt⟩ bo (.mk fs (some id)) dicts s =
        (.error (.err .missingDictionary), s)) ∧
    (∀ (k : IntegerType) (d : SourceBytes) (n voff vlen off len : Int)
      (bo : Nat) (fs : List IpcField) (id : Int) (tok : Nat)
      (dicts : Dictionaries) (ns : List Node) (rest : List IpcBuffer)
      (al : Nat), 0 ≤ n → dicts id = some tok → 0 ≤ voff → 0 ≤ vlen →
      0 ≤ off → 0 ≤ len → bo + off.toNat + len.toNat ≤ d.len →
      (d.base + (bo + off.toNat)) % (IntegerType.toPrimitive k).alignOf = 0 →
      len.toNat % (IntegerType.toPrimitive k).byteWidth = 0 →
      n.toNat ≤ len.toNat / (IntegerType.toPrimitive k).byteWidth →
      mmap_dict k d ⟨n, 0⟩ bo (.mk fs (some id)) dicts
          ⟨ns, ⟨voff, vlen⟩ :: ⟨off, len⟩ :: rest, al⟩ =
        (.ok (.mk n.toNat 0 0 [none, some (d.base + (bo + off.toNat))] []
          (some (.mk 0 0 0 [] [] none (some tok))) none),
         ⟨ns, rest, al + 3⟩)) := by
  constructor
  · intro k d n ncnt bo fs id dicts s hn hc hmiss
    simp only [mmap_dict, M.bind_apply, usizeOf, if_pos hn, if_pos hc,
      M.pure_apply, IpcField.dictionary_id, hmiss]
    rfl
  · intro k d n voff vlen off len bo fs id tok dicts ns rest al hn hdict hvo
      hvl ho hl hr ha hm hc
    simp only [mmap_dict, M.bind_apply, usizeOf, if_pos hn,
      if_pos (le_refl (0 : Int)), M.pure_apply, Int.toNat_zero,
      IpcField.dictionary_id, hdict,
      get_validity_nc0 d bo voff vlen ns (⟨off, len⟩ :: rest) al hvo hvl,
      Option.map_none',
      get_buffer_cast_ok (IntegerType.toPrimitive k) d bo n.toNat off len ns
        rest al ho hl hr ha hm,
      if_neg (not_lt.mpr hc), export_array_to_c, create_array,
      M.modifySt_apply]
    rfl

/-- Witness for C7 at concrete inputs: `dictionary_id = 7` missing from the
lookup fails with `MissingDictionary`; with the lookup supplying array token
3 for id 7, the built handle owns a fresh wrapper of exactly that array. -/
theorem dictionary_lookup_resolution_witness :
    mmap_dict .i32 ⟨0, 4⟩ ⟨1, 0⟩ 0 (.mk [] (some 7)) (fun _ => none)
      ⟨[], [⟨0, 0⟩, ⟨0, 4⟩], 0⟩ =
      (.error (.err .missingDictionary), ⟨[], [⟨0, 0⟩, ⟨0, 4⟩], 0⟩) ∧
    mmap_dict .i32 ⟨0, 4⟩ ⟨1, 0⟩ 0 (.mk [] (some 7))
      (fun i => if i = 7 then some 3 else none)
      ⟨[], [⟨0, 0⟩, ⟨0, 4⟩], 0⟩ =
      (.ok (.mk 1 0 0 [none, some 0] []
        (some (.mk 0 0 0 [] [] none (some 3))) none), ⟨[], [], 3⟩) :=
  ⟨dictionary_lookup_resolution.1 .i32 ⟨0, 4⟩ 1 0 0 [] 7 (fun _ => none)
      ⟨[], [⟨0, 0⟩, ⟨0, 4⟩], 0⟩ (by decide) (by decide) rfl,
   dictionary_lookup_resolution.2 .i32 ⟨0, 4⟩ 1 0 0 0 4 0 [] 7 3
      (fun i => if i = 7 then some 3 else none) [] [] 0 (by decide) rfl
      (by decide) (by decide) (by decide) (by decide) (by decide) (by decide)
      (by decide) (by decide)⟩

theorem M.bind_ok {α β : Type} {x : M α} {s s1 : St} {a : α}
    (f : α → M β) (hx : x s = (.ok a, s1)) : (x >>= f) s = f a s1 := by
  show M.bind x f s = f a s1
  unfold M.bind
  rw [hx]

theorem M.bind_error {α β : Type} {x : M α} {s s1 : St} {e : Failure}
    (f : α → M β) (hx : x s = (.error e, s1)) :
    (x >>= f) s = (.error e, s1) := by
  show M.bind x f s = (.error e, s1)
  unfold M.bind
  rw [hx]

/-- Unfolding `get_arrays` on a non-empty zip: build the head child, then the
rest, left to right. -/
theorem get_arrays_cons (data : SourceBytes) (bo : Nat) (c : DataType)
    (cs : DataTypeList) (f : IpcField) (fs : List IpcField)
    (dicts : Dictionaries) :
    get_arrays data bo (.cons c cs) (f :: fs) dicts =
      (get_array data bo c f dicts >>= fun a =>
        get_arrays data bo cs fs dicts >>= fun rest =>
          pure (a :: rest)) := by
  rw [get_arrays.eq_def]

/-- `get_arrays` with no IPC fields left builds nothing (zip truncation). -/
theorem get_arrays_fields_nil (data : SourceBytes) (bo : Nat)
    (cs : DataTypeList) (dicts : Dictionaries) :
    get_arrays data bo cs [] dicts = pure [] := by
  cases cs <;> rw [get_arrays.eq_def]

/-- `get_arrays` with no schema children left builds nothing (zip
truncation). -/
theorem get_arrays_children_nil (data : SourceBytes) (bo : Nat)
    (fs : List IpcField) (dicts : Dictionaries) :
    get_arrays data bo .nil fs dicts = pure [] := by
  cases fs <;> rw [get_arrays.eq_def]

/-- Unfolding the dispatcher at a Struct data type with a node available:
pop the node, then run `mmap_struct` with the recursive children loop. -/
theorem get_array_struct_cons (d : SourceBytes) (bo : Nat)
    (cs : DataTypeList) (f : IpcField) (dicts : Dictionaries) (n : Node)
    (ns : List Node) (bufs : List IpcBuffer) (al : Nat) :
    get_array d bo (.struct cs) f dicts ⟨n :: ns, bufs, al⟩ =
      mmap_struct d n bo f (fun fs => get_arrays d bo cs fs dicts)
        ⟨ns, bufs, al⟩ := by
  rw [get_array.eq_def]
  rfl

/-- Collecting a struct's children (`zip` + `collect`) stops at the shorter
of the schema child list and the IPC field list: a successful collection has
exactly `min` many children. -/
theorem get_arrays_ok_length (data : SourceBytes) (bo : Nat)
    (fs : List IpcField) (cs : DataTypeList) (dicts : Dictionaries) (s : St)
    (l : List ArrowArray)
    (h : (get_arrays data bo cs fs dicts s).1 = .ok l) :
    l.length = min cs.length fs.length := by
  induction fs generalizing cs s l with
  | nil =>
    rw [get_arrays_fields_nil] at h
    simp [M.pure_apply] at h
    subst h
    simp
  | cons f fs ih =>
    cases cs with
    | nil =>
      rw [get_arrays_children_nil] at h
      simp [M.pure_apply] at h
      subst h
      simp [DataTypeList.length]
    | cons c cs =>
      rw [get_arrays_cons] at h
      rcases h1 : get_array data bo c f dicts s with ⟨r1, s1⟩
      cases r1 with
      | error e =>
        rw [M.bind_error _ h1] at h
        simp at h
      | ok a =>
        simp only [M.bind_ok _ h1] at h
        rcases h2 : get_arrays data bo cs fs dicts s1 with ⟨r2, s2⟩
        cases r2 with
        | error e =>
          rw [M.bind_error _ h2] at h
          simp at h
        | ok l2 =>
          simp only [M.bind_ok _ h2, M.pure_apply, Except.ok.injEq] at h
          subst h
          have hlen := ih cs s1 l2 (by rw [h2])
          simp only [DataTypeList.length, List.length_cons]
          omega

/-- A successfully built Struct handle has exactly
`min (schema children) (IPC fields)` children: a shorter IPC field list is
silently truncated by the `zip`, not reported. -/
theorem struct_ok_children_min (d : SourceBytes) (bo : Nat)
    (cs : DataTypeList) (f : IpcField) (dicts : Dictionaries) (s : St)
    (a : ArrowArray)
    (h : (get_array d bo (.struct cs) f dicts s).1 = .ok a) :
    a.children.length = min cs.length f.fields.length := by
  rcases s with ⟨ns, bufs, al⟩
  cases ns with
  | nil =>
    rw [get_array.eq_def] at h
    simp [M.bind_apply, M.getSt_apply, M.fail_apply] at h
  | cons n ns =>
    rw [get_array_struct_cons] at h
    by_cases hn : 0 ≤ n.length
    · have e1 : usizeOf n.length ⟨ns, bufs, al⟩ =
          (.ok n.length.toNat, ⟨ns, bufs, al⟩) := by
        simp [usizeOf, if_pos hn, M.pure_apply]
      by_cases hc : 0 ≤ n.null_count
      · have e2 : usizeOf n.null_count ⟨ns, bufs, al⟩ =
            (.ok n.null_count.toNat, ⟨ns, bufs, al⟩) := by
          simp [usizeOf, if_pos hc, M.pure_apply]
        rcases hv : get_validity d bo n.null_count.toNat ⟨ns, bufs, al⟩ with
          ⟨rv, s1⟩
        cases rv with
        | error e =>
          simp only [mmap_struct, M.bind_ok _ e1, M.bind_ok _ e2,
            M.bind_error _ hv] at h
          simp at h
        | ok v =>
          rcases hg : get_arrays d bo cs f.fields dicts s1 with ⟨rg, s2⟩
          cases rg with
          | error e =>
            simp only [mmap_struct, M.bind_ok _ e1, M.bind_ok _ e2,
              M.bind_ok _ hv, M.bind_error _ hg] at h
            simp at h
          | ok values =>
            simp only [mmap_struct, M.bind_ok _ e1, M.bind_ok _ e2,
              M.bind_ok _ hv, M.bind_ok _ hg, create_array, M.bind_apply,
              M.modifySt_apply, M.pure_apply] at h
            simp only [Except.ok.injEq] at h
            subst h
            simpa [ArrowArray.children] using
              get_arrays_ok_length d bo f.fields cs dicts s1 values
                (by rw [hg])
      · have e2 : usizeOf n.null_count ⟨ns, bufs, al⟩ =
            (.error (.err .negativeFooterLength), ⟨ns, bufs, al⟩) := by
          simp [usizeOf, if_neg hc, M.fail_apply]
        simp only [mmap_struct, M.bind_ok _ e1, M.bind_error _ e2] at h
        simp at h
    · have e1 : usizeOf n.length ⟨ns, bufs, al⟩ =
          (.error (.err .negativeFooterLength), ⟨ns, bufs, al⟩) := by
        simp [usizeOf, if_neg hn, M.fail_apply]
      simp only [mmap_struct, M.bind_error _ e1] at h
      simp at h

set_option smartUnfolding false in
/-- C5 counterexample: a Struct column declaring two Int32 children paired
with an IPC field carrying only one child field builds successfully with a
single child — the schema/IPC-metadata mismatch is silently tolerated and
the second child silently skipped, not reported as a corruption error. -/
theorem struct_missing_ipc_field_not_error_cex :
    okChildren (get_array ⟨0, 4⟩ 0
      (.struct (.cons (.primitive .int32) (.cons (.primitive .int32) .nil)))
      (.mk [.mk [] none] none) (fun _ => none)
      ⟨[⟨1, 0⟩, ⟨1, 0⟩], [⟨0, 0⟩, ⟨0, 0⟩, ⟨0, 4⟩], 0⟩) = some 1 ∧
    (DataTypeList.cons (.primitive .int32)
      (.cons (.primitive .int32) .nil)).length = 2 :=
  ⟨by decide, by decide⟩

/-- C5 (amended): children are consumed left-to-right in declared field
order, but a Struct builds `min(N, |IPC child fields|)` children, not
necessarily `N`: the zip truncates at the shorter list, so a mismatched
(shorter) IPC field list silently drops trailing schema children instead of
failing. -/
theorem struct_children_silently_truncated :
    (∀ (data : SourceBytes) (bo : Nat) (cs : DataTypeList)
      (fs : List IpcField) (dicts : Dictionaries) (s : St)
      (l : List ArrowArray), (get_arrays data bo cs fs dicts s).1 = .ok l →
      l.length = min cs.length fs.length) ∧
    (∀ (d : SourceBytes) (bo : Nat) (cs : DataTypeList) (f : IpcField)
      (dicts : Dictionaries) (s : St) (a : ArrowArray),
      (get_array d bo (.struct cs) f dicts s).1 = .ok a →
      a.children.length = min cs.length f.fields.length) :=
  ⟨fun data bo cs fs dicts s l h =>
    get_arrays_ok_length data bo fs cs dicts s l h,
   fun d bo cs f dicts s a h =>
    struct_ok_children_min d bo cs f dicts s a h⟩

set_option smartUnfolding false in
/-- Witness for C5 (amended) at the concrete truncation input: the built
handle has `min 2 1 = 1` child. -/
theorem struct_children_silently_truncated_witness :
    (ArrowArray.mk 1 0 0 [none] [.mk 1 0 0 [none, some 0] [] none none]
      none none).children.length =
      min (DataTypeList.cons (.primitive .int32)
        (.cons (.primitive .int32) .nil)).length
        (IpcField.fields (.mk [.mk [] none] none)).length :=
  struct_children_silently_truncated.2 ⟨0, 4⟩ 0
    (.cons (.primitive .int32) (.cons (.primitive .int32) .nil))
    (.mk [.mk [] none] none) (fun _ => none)
    ⟨[⟨1, 0⟩, ⟨1, 0⟩], [⟨0, 0⟩, ⟨0, 0⟩, ⟨0, 4⟩], 0⟩
    (.mk 1 0 0 [none] [.mk 1 0 0 [none, some 0] [] none none] none none)
    rfl

set_option smartUnfolding false in
/-- C2 (code-bug evidence): a failing build leaks the wrappers it already
made.  Struct with two Int32 children over a queue holding descriptors for
only the first child: the first child builds (allocating its private
payload), the second child's validity pop hits the exhausted queue and the
`ExpectedBuffer` error propagates — but the final allocation count is 1,
not 0: dropping the collected `ArrowArray` values runs no release, so the
first child's payload is never freed before the error crosses the
boundary. -/
theorem failing_struct_build_leaks_child_allocation :
    errOf (get_array ⟨0, 4⟩ 0
      (.struct (.cons (.primitive .int32) (.cons (.primitive .int32) .nil)))
      (.mk [.mk [] none, .mk [] none] none) (fun _ => none)
      ⟨[⟨1, 0⟩, ⟨1, 0⟩, ⟨1, 0⟩], [⟨0, 0⟩, ⟨0, 0⟩, ⟨0, 4⟩], 0⟩) =
      some (.err .expectedBuffer) ∧
    (get_array ⟨0, 4⟩ 0
      (.struct (.cons (.primitive .int32) (.cons (.primitive .int32) .nil)))
      (.mk [.mk [] none, .mk [] none] none) (fun _ => none)
      ⟨[⟨1, 0⟩, ⟨1, 0⟩, ⟨1, 0⟩], [⟨0, 0⟩, ⟨0, 0⟩, ⟨0, 4⟩], 0⟩).2.alloc = 1 :=
  ⟨by decide, by decide⟩

end ArrowMmap
